import Mathlib

/-!
Verification of the computational core of the `xml-invoice-builder`
repository: the derived-totals calculation over a dynamic list of invoice
line items, the zod validation rules constraining submitted records, and
the line-item list editor (add / remove transitions), all embedded shallowly
with exact rational arithmetic in place of JavaScript floating point.
-/

/-- VAT-nature codes, mirroring `z.enum(["N1", ..., "N7"])` in
`invoiceSchema.lineItems` of `src/components/InvoiceForm.tsx`. -/
inductive NaturaIVA where
  | N1 | N2 | N3 | N4 | N5 | N6 | N7
deriving DecidableEq, Repr

/-- A line item as held in form state. During in-progress edits the numeric
fields `quantity`, `unitPrice`, `vatRate` may be missing (`undefined` in the
source), hence `Option ℚ`. -/
structure LineItem where
  id : String
  description : String
  quantity : Option ℚ
  unitPrice : Option ℚ
  vatRate : Option ℚ
  vatNature : Option NaturaIVA
deriving DecidableEq, Repr

/-- The accumulator / result of the totals calculation,
`{ subtotal, vatTotal, total }` in the source. -/
structure Totals where
  subtotal : ℚ
  vatTotal : ℚ
  total : ℚ
deriving DecidableEq, Repr

/-- One step of the `reduce` in the `totals` memo of
`src/components/InvoiceForm.tsx` (lines 122-136):
`lineTotal = (item.quantity || 0) * (item.unitPrice || 0)`,
`vatAmount = lineTotal * ((item.vatRate || 0) / 100)`, then the three
accumulator fields are incremented. `x || 0` on a `number | undefined`
field is `Option.getD 0` here (for a defined number `q`, `q || 0` is `q`
when `q` is truthy and `0 = q` when `q = 0`). -/
def totalsStep (acc : Totals) (item : LineItem) : Totals :=
  let lineTotal := item.quantity.getD 0 * item.unitPrice.getD 0
  let vatAmount := lineTotal * (item.vatRate.getD 0 / 100)
  { subtotal := acc.subtotal + lineTotal
    vatTotal := acc.vatTotal + vatAmount
    total := acc.total + (lineTotal + vatAmount) }

/-- The totals calculator: `watchedLineItems.reduce(..., {subtotal: 0,
vatTotal: 0, total: 0})` from `src/components/InvoiceForm.tsx`. -/
def totals (items : List LineItem) : Totals :=
  items.foldl totalsStep { subtotal := 0, vatTotal := 0, total := 0 }

/-- The spec formula `subtotal = Σ(quantity × unitPrice)`, written from the
words of the spec for comparison with `totals` from the code. -/
def specSubtotal (items : List LineItem) : ℚ :=
  (items.map (fun it => it.quantity.getD 0 * it.unitPrice.getD 0)).sum

/-- The spec formula `vatTotal = Σ(quantity × unitPrice × vatRate/100)`,
written from the words of the spec for comparison with `totals` from the
code. -/
def specVatTotal (items : List LineItem) : ℚ :=
  (items.map
    (fun it => it.quantity.getD 0 * it.unitPrice.getD 0 * (it.vatRate.getD 0 / 100))).sum

lemma foldl_totalsStep (items : List LineItem) :
    ∀ acc : Totals,
      items.foldl totalsStep acc =
        { subtotal := acc.subtotal + specSubtotal items
          vatTotal := acc.vatTotal + specVatTotal items
          total := acc.total + (specSubtotal items + specVatTotal items) } := by
  induction items with
  | nil =>
      intro acc
      simp [specSubtotal, specVatTotal]
  | cons it rest ih =>
      intro acc
      simp only [List.foldl_cons, ih, totalsStep, specSubtotal, specVatTotal,
        List.map_cons, List.sum_cons, Totals.mk.injEq]
      refine ⟨by ring, by ring, by ring⟩

/-- C1: for every sequence of line items the totals calculator returns
`subtotal = Σ(quantity × unitPrice)`, `vatTotal = Σ(quantity × unitPrice ×
vatRate/100)` and `total = subtotal + vatTotal` (exactly, over exact
rational arithmetic), and on the single item
`{quantity: 2, unitPrice: 100, vatRate: 22}` it returns
`subtotal = 200`, `vatTotal = 44`, `total = 244`. -/
theorem totals_matches_spec_formulas :
    (∀ items : List LineItem,
      totals items =
        { subtotal := specSubtotal items
          vatTotal := specVatTotal items
          total := specSubtotal items + specVatTotal items }) ∧
    totals [⟨"item-1", "Consulenza", some 2, some 100, some 22, none⟩] =
      { subtotal := 200, vatTotal := 44, total := 244 } := by
  constructor
  · intro items
    simpa using foldl_totalsStep items { subtotal := 0, vatTotal := 0, total := 0 }
  · simp only [totals, List.foldl_cons, List.foldl_nil, totalsStep,
      Option.getD_some, Totals.mk.injEq]
    norm_num

/-- C5: the totals calculator applied to the empty sequence of line items
returns exactly `{subtotal: 0, vatTotal: 0, total: 0}`. -/
theorem totals_nil : totals [] = { subtotal := 0, vatTotal := 0, total := 0 } := rfl

/-- Replace every missing numeric field of a line item by an explicit `0`,
the substitution the spec describes for tolerant partial input. -/
def fillZero (item : LineItem) : LineItem :=
  { item with
    quantity := some (item.quantity.getD 0)
    unitPrice := some (item.unitPrice.getD 0)
    vatRate := some (item.vatRate.getD 0) }

lemma totalsStep_fillZero (acc : Totals) (item : LineItem) :
    totalsStep acc (fillZero item) = totalsStep acc item := rfl

lemma foldl_totalsStep_map_fillZero (items : List LineItem) :
    ∀ acc : Totals,
      (items.map fillZero).foldl totalsStep acc = items.foldl totalsStep acc := by
  induction items with
  | nil => intro acc; rfl
  | cons it rest ih =>
      intro acc
      simp only [List.map_cons, List.foldl_cons, totalsStep_fillZero, ih]

/-- C6: the totals calculator treats each missing numeric field
(`quantity`, `unitPrice`, `vatRate`) as `0`: the totals of any sequence of
line items equal the totals of the same sequence with every missing field
replaced by `0`. -/
theorem totals_missing_fields_as_zero (items : List LineItem) :
    totals (items.map fillZero) = totals items :=
  foldl_totalsStep_map_fillZero items _

/-- A JavaScript numeric field value as it can occur in form state:
an ordinary (finite) number, `NaN`, `undefined`, or `null`. -/
inductive JSNum where
  | num (q : ℚ)
  | nan
  | undef
  | nullv
deriving DecidableEq, Repr

/-- The coercion performed by `x || 0` in the `totals` reduce: a truthy
number passes through, while `0`, `NaN`, `undefined` and `null` (all falsy)
become `0`. For `num q` the result is `q` in either case, since when `q` is
falsy it is already `0`. -/
def JSNum.orZero : JSNum → ℚ
  | .num q => q
  | .nan => 0
  | .undef => 0
  | .nullv => 0

/-- The projection identifying `NaN` and `null` with a missing
(`undefined`) field: only a genuine number survives. -/
def JSNum.toOpt : JSNum → Option ℚ
  | .num q => some q
  | .nan => none
  | .undef => none
  | .nullv => none

lemma JSNum.orZero_eq_toOpt_getD (v : JSNum) : v.orZero = v.toOpt.getD 0 := by
  cases v <;> rfl

/-- A line item whose numeric fields carry raw JavaScript values
(possibly `NaN` or `null`). -/
structure JSLineItem where
  id : String
  description : String
  quantity : JSNum
  unitPrice : JSNum
  vatRate : JSNum
  vatNature : Option NaturaIVA
deriving DecidableEq, Repr

/-- The totals reduce step on raw JavaScript field values, mirroring
`(item.quantity || 0) * (item.unitPrice || 0)` and
`lineTotal * ((item.vatRate || 0) / 100)` from the source. -/
def totalsStepJS (acc : Totals) (item : JSLineItem) : Totals :=
  let lineTotal := item.quantity.orZero * item.unitPrice.orZero
  let vatAmount := lineTotal * (item.vatRate.orZero / 100)
  { subtotal := acc.subtotal + lineTotal
    vatTotal := acc.vatTotal + vatAmount
    total := acc.total + (lineTotal + vatAmount) }

/-- The totals calculator on raw JavaScript field values. -/
def totalsJS (items : List JSLineItem) : Totals :=
  items.foldl totalsStepJS { subtotal := 0, vatTotal := 0, total := 0 }

/-- Project a raw JavaScript line item to the `Option`-field model,
reading `NaN` and `null` numeric fields as missing. -/
def projectItem (item : JSLineItem) : LineItem :=
  { id := item.id
    description := item.description
    quantity := item.quantity.toOpt
    unitPrice := item.unitPrice.toOpt
    vatRate := item.vatRate.toOpt
    vatNature := item.vatNature }

lemma totalsStepJS_eq_project (acc : Totals) (item : JSLineItem) :
    totalsStepJS acc item = totalsStep acc (projectItem item) := by
  simp only [totalsStepJS, totalsStep, projectItem, JSNum.orZero_eq_toOpt_getD]

lemma foldl_totalsStepJS (items : List JSLineItem) :
    ∀ acc : Totals,
      items.foldl totalsStepJS acc = (items.map projectItem).foldl totalsStep acc := by
  induction items with
  | nil => intro acc; rfl
  | cons it rest ih =>
      intro acc
      simp only [List.foldl_cons, List.map_cons, totalsStepJS_eq_project, ih]

/-- C9: the totals calculator treats a `NaN` (or `null`) numeric field
exactly like a missing (`undefined`) one — each contributes `0` to every
sum — so the result coincides with the calculator run on the projection
where every non-number field is read as missing, and (the fields being
exact rationals there) `subtotal`, `vatTotal` and `total` are always
ordinary finite numbers, never `NaN`. -/
theorem totalsJS_nan_null_as_missing (items : List JSLineItem) :
    totalsJS items = totals (items.map projectItem) :=
  foldl_totalsStepJS items _

/-- The line item appended by `addLineItem` and pre-populated in
`defaultValues.lineItems`: `{id: crypto.randomUUID(), description: "",
quantity: 1, unitPrice: 0, vatRate: 22}` (id generation is modelled by
taking the generated id as an argument). -/
def defaultItem (id : String) : LineItem :=
  { id := id
    description := ""
    quantity := some 1
    unitPrice := some 0
    vatRate := some 22
    vatNature := none }

/-- The handler `addLineItem` from `src/components/InvoiceForm.tsx` (lines 147-155):
append a new default line item with a generated id. -/
def addLineItem (items : List LineItem) (id : String) : List LineItem :=
  items ++ [defaultItem id]

/-- A transition of the line-item list editor: `Add` (the "Aggiungi Linea"
button, with the id the generator produced) or `Remove(index)` (the per-row
trash button). -/
inductive EditStep where
  | add (id : String)
  | removeAt (i : ℕ)

/-- Apply one editor transition. The remove button is rendered only when
`fields.length > 1` (line 655 of the source), so `Remove` with a single
remaining item is a no-op; when enabled it calls `remove(index)`, deleting
the item at that index. -/
def applyStep (items : List LineItem) : EditStep → List LineItem
  | .add id => addLineItem items id
  | .removeAt i => if 1 < items.length then items.eraseIdx i else items

/-- Run a sequence of editor transitions from a starting list. -/
def runEdits (items : List LineItem) (steps : List EditStep) : List LineItem :=
  steps.foldl applyStep items

lemma one_le_length_applyStep (items : List LineItem) (s : EditStep)
    (h : 1 ≤ items.length) : 1 ≤ (applyStep items s).length := by
  cases s with
  | add id => simp [applyStep, addLineItem]
  | removeAt i =>
      simp only [applyStep]
      split
      · rename_i hlen
        rw [List.length_eraseIdx]
        split <;> omega
      · exact h

lemma one_le_length_runEdits (steps : List EditStep) :
    ∀ items : List LineItem, 1 ≤ items.length → 1 ≤ (runEdits items steps).length := by
  induction steps with
  | nil => intro items h; exact h
  | cons s rest ih =>
      intro items h
      exact ih (applyStep items s) (one_le_length_applyStep items s h)

/-- C4: starting from the single default line item, every sequence of Add
and Remove(index) transitions keeps the list non-empty — Remove is a no-op
when exactly one item remains, so no reachable state has fewer than one
item. -/
theorem runEdits_length_ge_one (id0 : String) (steps : List EditStep) :
    1 ≤ (runEdits [defaultItem id0] steps).length :=
  one_le_length_runEdits steps [defaultItem id0] (by simp)

/-- C8: the Add transition yields a list one longer than before, leaves the
existing items unchanged and in order, and appends exactly one item carrying
the generated id and the defaults `{quantity: 1, unitPrice: 0, vatRate: 22}`. -/
theorem addLineItem_appends_default (items : List LineItem) (id : String) :
    (addLineItem items id).length = items.length + 1 ∧
    (addLineItem items id).take items.length = items ∧
    (addLineItem items id).drop items.length = [defaultItem id] ∧
    (defaultItem id).id = id ∧
    (defaultItem id).quantity = some 1 ∧
    (defaultItem id).unitPrice = some 0 ∧
    (defaultItem id).vatRate = some 22 := by
  refine ⟨?_, ?_, ?_, rfl, rfl, rfl, rfl⟩
  · simp [addLineItem]
  · simp [addLineItem, List.take_left]
  · simp [addLineItem, List.drop_left]

/-- Characters the zod email check allows in the local part:
alphanumerics, underscore, apostrophe (code 39), plus, hyphen, dot. -/
def isEmailLocalChar (c : Char) : Bool :=
  c.isAlphanum || c == '_' || c.toNat == 39 || c == '+' || c == '-' || c == '.'

/-- Characters the zod email check allows as the last local-part
character (no trailing dot or apostrophe). -/
def isEmailLocalLast (c : Char) : Bool :=
  c.isAlphanum || c == '_' || c == '+' || c == '-'

/-- No two consecutive dots occur in the character list. -/
def noDoubleDot : List Char → Bool
  | [] => true
  | [_] => true
  | a :: b :: rest => !(a == '.' && b == '.') && noDoubleDot (b :: rest)

/-- Local part of an email: non-empty, no leading dot, only allowed
characters, and an allowed final character. -/
def localPartOK (cs : List Char) : Bool :=
  match cs.getLast? with
  | none => false
  | some lastc =>
      !(cs.head? == some '.') && cs.all isEmailLocalChar && isEmailLocalLast lastc

/-- A non-final domain label: leading alphanumeric, then alphanumerics or
hyphens. -/
def domainLabelOK (cs : List Char) : Bool :=
  match cs with
  | [] => false
  | c :: rest => c.isAlphanum && rest.all (fun d => d.isAlphanum || d == '-')

/-- The final domain label: at least two letters. -/
def tldOK (cs : List Char) : Bool :=
  decide (2 ≤ cs.length) && cs.all Char.isAlpha

/-- Domain of an email: at least two dot-separated labels, the last one a
letters-only label of length at least 2, the others ordinary labels. -/
def domainOK (cs : List Char) : Bool :=
  let parts := cs.splitOn '.'
  match parts.getLast? with
  | none => false
  | some tld =>
      decide (2 ≤ parts.length) && tldOK tld && parts.dropLast.all domainLabelOK

/-- The email-syntax check performed by the zod `.email()` string validator
(a third-party dependency of the repository, modelled from its email
regular expression): exactly one `@` separating a well-formed local part
from a well-formed domain, with no consecutive dots in the local part. -/
def isValidEmail (s : String) : Bool :=
  match s.toList.splitOn '@' with
  | [loc, dom] => localPartOK loc && noDoubleDot loc && domainOK dom
  | _ => false

/-- The rule `pecDestinatario: z.string().email().optional()` from
`invoiceSchema` (line 20 of `src/components/InvoiceForm.tsx`): an absent
(`undefined`) field passes, a present string must be a syntactically valid
email address. -/
def pecDestinatarioValid : Option String → Bool
  | none => true
  | some s => isValidEmail s

lemma isValidEmail_sample : isValidEmail "destinatario@pec.it" = true := by decide

/-- C7: a present `pecDestinatario` that is not a syntactically valid email
address, such as `"not-an-email"`, is rejected by the schema rule, while a
record omitting the field entirely passes that rule (the field is
optional). -/
theorem pecDestinatario_invalid_email_rejected_absent_ok :
    pecDestinatarioValid (some "not-an-email") = false ∧
    pecDestinatarioValid none = true := by
  exact ⟨by decide, rfl⟩

/-- C10: a `pecDestinatario` cleared to the empty string `""` is rejected:
the rule accepts only an absent field or a valid email, and `""` is a
present, invalid value. -/
theorem pecDestinatario_empty_string_rejected :
    pecDestinatarioValid (some "") = false := by decide

/-- A line item as submitted to validation: the numeric fields must already
be numbers (zod `z.number()` rejects anything else), `vatNature` is an
optional code from the 7-value enumeration. -/
structure SubmittedItem where
  id : String
  description : String
  quantity : ℚ
  unitPrice : ℚ
  vatRate : ℚ
  vatNature : Option NaturaIVA
deriving DecidableEq, Repr

/-- The rule `description: z.string().min(1, ...)` from
`invoiceSchema.lineItems`. -/
def descriptionRule (s : String) : Bool :=
  decide (1 ≤ s.length)

/-- The rule `quantity: z.number().min(0.01, "Quantity must be greater
than 0")` from `invoiceSchema.lineItems`: the value must be at least
`0.01`. -/
def quantityRule (q : ℚ) : Bool :=
  decide (1 / 100 ≤ q)

/-- The rule `unitPrice: z.number().min(0, ...)` from
`invoiceSchema.lineItems`. -/
def unitPriceRule (p : ℚ) : Bool :=
  decide (0 ≤ p)

/-- The rule `vatRate: z.number().min(0).max(100, ...)` from
`invoiceSchema.lineItems`. -/
def vatRateRule (r : ℚ) : Bool :=
  decide (0 ≤ r) && decide (r ≤ 100)

/-- The full per-item check of `invoiceSchema.lineItems` (lines 56-63 of
`src/components/InvoiceForm.tsx`). `id` is an unconstrained string and
`vatNature: z.enum([...]).optional()` is a purely type-level constraint,
already guaranteed by the type `Option NaturaIVA`, so neither contributes a
predicate here: the schema never conditions on `vatRate` to require
`vatNature`. -/
def lineItemValid (it : SubmittedItem) : Bool :=
  descriptionRule it.description && quantityRule it.quantity &&
    unitPriceRule it.unitPrice && vatRateRule it.vatRate

/-- C2 counterexample: quantity `1/200 = 0.005` is strictly greater than
`0`, yet the quantity rule rejects it, so "accepts iff quantity > 0" is
false of the code. -/
theorem quantityRule_rejects_small_positive :
    (0 : ℚ) < 1 / 200 ∧ quantityRule (1 / 200) = false := by
  constructor
  · norm_num
  · simp only [quantityRule, decide_eq_false_iff_not]
    norm_num

/-- C2 (amended): the quantity rule of the validation schema accepts the
quantity of a line item exactly when it is at least `0.01` — it reports a
quantity error exactly when `quantity < 0.01`. -/
theorem quantityRule_iff (q : ℚ) :
    quantityRule q = true ↔ 1 / 100 ≤ q := by
  simp [quantityRule]

/-- A concrete line item with an exemption-level VAT rate (`vatRate = 0`)
and no `vatNature`. -/
def exemptItem : SubmittedItem :=
  { id := "item-1"
    description := "Servizio esente"
    quantity := 1
    unitPrice := 0
    vatRate := 0
    vatNature := none }

/-- C3 counterexample: a line item with `vatRate = 0` and no `vatNature`
passes the schema, so "validation rejects an item with vatRate 0 and no
vatNature" is false of the code. -/
theorem lineItemValid_accepts_exemption_without_nature :
    exemptItem.vatRate = 0 ∧ exemptItem.vatNature = none ∧
      lineItemValid exemptItem = true := by
  refine ⟨rfl, rfl, ?_⟩
  simp only [lineItemValid, exemptItem, descriptionRule, quantityRule,
    unitPriceRule, vatRateRule, Bool.and_eq_true, decide_eq_true_eq]
  refine ⟨⟨⟨by decide, by norm_num⟩, by norm_num⟩, by norm_num, by norm_num⟩

/-- C3 (amended): `vatNature` is unconditionally optional — the per-item
validation never consults it, so its value (including its absence) never
changes the verdict, even when `vatRate = 0`; in particular an
exemption-rate item with no `vatNature` is accepted when the other field
rules pass. -/
theorem lineItemValid_ignores_vatNature :
    (∀ (it : SubmittedItem) (n : Option NaturaIVA),
      lineItemValid { it with vatNature := n } = lineItemValid it) ∧
    lineItemValid exemptItem = true := by
  refine ⟨fun it n => rfl, ?_⟩
  simp only [lineItemValid, exemptItem, descriptionRule, quantityRule,
    unitPriceRule, vatRateRule, Bool.and_eq_true, decide_eq_true_eq]
  refine ⟨⟨⟨by decide, by norm_num⟩, by norm_num⟩, by norm_num, by norm_num⟩
